import Mathlib

/-!
Shallow embedding of `src/Protobot.ino`, the LynxMotion AL5D inverse-kinematics
controller.  C `float` arithmetic is modelled over `ℝ`.  The C library's `acos`
returns NaN outside `[-1, 1]`, and a division by a zero denominator produces a
non-finite value; both are caught by the source's `isnan`/`isinf` checks and
are modelled here by explicit domain guards returning `none`.  Servo pulse
writes and speaker tones are modelled as an explicit effect trace.
-/

open Real

open scoped Classical

namespace Protobot

/-- Arm dimensions (mm), source lines 17-20. -/
def BASE_HGT : ℝ := 80.9625

def HUMERUS : ℝ := 263.525

def ULNA : ℝ := 325.4375

def GRIPPER : ℝ := 73.025

/-- Generic servo range limits in us and deg, source lines 39-44. -/
def SERVO_MIN_US : ℤ := 600

def SERVO_MID_US : ℤ := 1500

def SERVO_MAX_US : ℤ := 2400

def SERVO_MIN_DEG : ℝ := 0

def SERVO_MID_DEG : ℝ := 90

def SERVO_MAX_DEG : ℝ := 180

/-- Per-servo physical limits (degrees), source lines 48-66. -/
def BAS_MIN : ℝ := 0

def BAS_MID : ℝ := 90

def BAS_MAX : ℝ := 180

def SHL_MIN : ℝ := 20

def SHL_MID : ℝ := 81

def SHL_MAX : ℝ := 140

def ELB_MIN : ℝ := 20

def ELB_MID : ℝ := 88

def ELB_MAX : ℝ := 165

def WRI_MIN : ℝ := 0

def WRI_MID : ℝ := 93

def WRI_MAX : ℝ := 180

def GRI_MIN : ℝ := 25

def GRI_MID : ℝ := 90

def GRI_MAX : ℝ := 165

/-- Speed adjustment parameters, source lines 70-73. -/
def SPEED_MIN : ℝ := 0.5

def SPEED_MAX : ℝ := 1.5

def SPEED_DEFAULT : ℝ := 1

def SPEED_INCREMENT : ℝ := 0.25

/-- Practical navigation limit (mm), source line 78. -/
def Y_MIN : ℝ := 100

/-- PS2 controller characteristics, source lines 81-86. -/
def JS_MIDPOINT : ℤ := 128

def JS_DEADBAND : ℤ := 4

def JS_IK_SCALE : ℝ := 50

def JS_SCALE : ℝ := 100

def Z_INCREMENT : ℝ := 2

def G_INCREMENT : ℝ := 2

/-- Audible feedback sounds, source lines 89-91. -/
def TONE_READY : ℝ := 1000

def TONE_IK_ERROR : ℝ := 200

def TONE_DURATION : ℝ := 100

/-- IK function return values, source lines 94-95. -/
def IK_SUCCESS : ℤ := 0

def IK_ERROR : ℤ := 1

/-- Ready-To-Run arm position, source lines 103-106. -/
def READY_Y : ℝ := 170

def READY_Z : ℝ := 45

def READY_GA : ℝ := 0

def READY_G : ℝ := GRI_MID

/-- Pre-calculations, source lines 116-117. -/
def hum_sq : ℝ := HUMERUS * HUMERUS

def uln_sq : ℝ := ULNA * ULNA

/-- Arduino `radians(deg)` macro: degrees to radians. -/
noncomputable def radians (d : ℝ) : ℝ := d * (π / 180)

/-- Arduino `degrees(rad)` macro: radians to degrees. -/
noncomputable def degrees (r : ℝ) : ℝ := r * (180 / π)

/-- C library `atan2(num, den)`: the angle of the point `(den, num)` in
`(-π, π]`, with `atan2 0 0 = 0`. -/
noncomputable def atan2 (num den : ℝ) : ℝ :=
  if 0 < den then arctan (num / den)
  else if den < 0 then
    (if 0 ≤ num then arctan (num / den) + π else arctan (num / den) - π)
  else if 0 < num then π / 2
  else if num < 0 then -(π / 2)
  else 0

/-- C library `acos` with its domain made explicit: outside `[-1, 1]` the C
function returns NaN, which the source's `isnan`/`isinf` checks turn into
`IK_ERROR`; here that is `none`. -/
noncomputable def acosD (u : ℝ) : Option ℝ :=
  if -1 ≤ u ∧ u ≤ 1 then some (arccos u) else none

/-- Servo identifiers (the five `Servo` objects of the source). -/
inductive Joint where
  | Bas
  | Shl
  | Elb
  | Wri
  | Gri
deriving DecidableEq

/-- Observable device calls made by the embedded code: a
`writeMicroseconds` call on one servo, or a `tone` call on the speaker. -/
inductive Effect where
  | servo (j : Joint) (us : ℤ)
  | tone (freqHz : ℝ) (durMs : ℝ)

/-- Source `map_float` (lines 358-361). -/
noncomputable def map_float (x in_min in_max out_min out_max : ℝ) : ℝ :=
  (x - in_min) * (out_max - out_min) / (in_max - in_min) + out_min

/-- Source `deg_to_us` (lines 348-355): clamp to the generic degree range,
then map linearly onto the us range, rounding to the nearest integer.  C
`round` rounds halves away from zero; on the clamped range the argument is
always positive, where that agrees with Lean's `round` (halves up). -/
noncomputable def deg_to_us (value : ℝ) : ℤ :=
  let v1 := if value < SERVO_MIN_DEG then SERVO_MIN_DEG else value
  let v2 := if v1 > SERVO_MAX_DEG then SERVO_MAX_DEG else v1
  round (map_float v2 SERVO_MIN_DEG SERVO_MAX_DEG (SERVO_MIN_US : ℝ) (SERVO_MAX_US : ℝ))

/-- Intermediate quantities of `set_arm` (source lines 257-310), named as in
the source.  `rdist` is the radial distance from the x, y coordinates. -/
noncomputable def rdist (x y : ℝ) : ℝ := Real.sqrt (x * x + y * y)

noncomputable def bas_angle_r (x y : ℝ) : ℝ := atan2 x y

noncomputable def grip_off_z (ga : ℝ) : ℝ := Real.sin (radians ga) * GRIPPER

noncomputable def grip_off_y (ga : ℝ) : ℝ := Real.cos (radians ga) * GRIPPER

noncomputable def wrist_z (z ga : ℝ) : ℝ := (z - grip_off_z ga) - BASE_HGT

noncomputable def wrist_y (x y ga : ℝ) : ℝ := rdist x y - grip_off_y ga

noncomputable def s_w (x y z ga : ℝ) : ℝ :=
  wrist_z z ga * wrist_z z ga + wrist_y x y ga * wrist_y x y ga

noncomputable def s_w_sqrt (x y z ga : ℝ) : ℝ := Real.sqrt (s_w x y z ga)

noncomputable def a1 (x y z ga : ℝ) : ℝ := atan2 (wrist_z z ga) (wrist_y x y ga)

/-- Argument of the `acos` computing `a2` (source line 285).  When
`s_w_sqrt = 0` the C code divides by zero; that case is guarded separately
in `arm_positions`. -/
noncomputable def shoulderArg (x y z ga : ℝ) : ℝ :=
  ((hum_sq - uln_sq) + s_w x y z ga) / (2 * HUMERUS * s_w_sqrt x y z ga)

/-- Argument of the `acos` computing the elbow angle (source line 295). -/
noncomputable def elbowArg (x y z ga : ℝ) : ℝ :=
  (hum_sq + uln_sq - s_w x y z ga) / (2 * HUMERUS * ULNA)

/-- Joint-angle computation of `set_arm` (source lines 257-310) up to but
not including the servo range check: `none` exactly where the source takes
an `isnan`/`isinf` early return; otherwise the four mapped servo positions
`(bas_pos, shl_pos, elb_pos, wri_pos)`. -/
noncomputable def arm_positions (x y z grip_angle_d : ℝ) : Option (ℝ × ℝ × ℝ × ℝ) :=
  if s_w_sqrt x y z grip_angle_d = 0 then none
  else
    match acosD (shoulderArg x y z grip_angle_d) with
    | none => none
    | some a2 =>
      let shl_angle_d := degrees (a1 x y z grip_angle_d + a2)
      match acosD (elbowArg x y z grip_angle_d) with
      | none => none
      | some elb_angle_r =>
        let elb_angle_d := degrees elb_angle_r
        let elb_angle_dn := -(180 - elb_angle_d)
        let wri_angle_d := (grip_angle_d - elb_angle_dn) - shl_angle_d
        some (BAS_MID + degrees (bas_angle_r x y), SHL_MID + (shl_angle_d - 90),
          ELB_MID - (elb_angle_d - 90), WRI_MID + wri_angle_d)

/-- Servo range check of source line 313, on `(bas_pos, shl_pos, elb_pos, wri_pos)`. -/
def limitViolation (p : ℝ × ℝ × ℝ × ℝ) : Prop :=
  p.1 < BAS_MIN ∨ p.1 > BAS_MAX ∨ p.2.1 < SHL_MIN ∨ p.2.1 > SHL_MAX ∨
    p.2.2.1 < ELB_MIN ∨ p.2.2.1 > ELB_MAX ∨ p.2.2.2 < WRI_MIN ∨ p.2.2.2 > WRI_MAX

/-- Source `set_arm`, value level: `some` of the four mapped servo positions
when every check passes, `none` where the source returns `IK_ERROR`. -/
noncomputable def set_arm_angles (x y z grip_angle_d : ℝ) : Option (ℝ × ℝ × ℝ × ℝ) :=
  match arm_positions x y z grip_angle_d with
  | none => none
  | some p => if limitViolation p then none else some p

/-- Source line 313 with the two base-angle comparisons removed; used only to
analyse whether the base check can be the sole cause of an `IK_ERROR`. -/
def limitViolationNoBase (p : ℝ × ℝ × ℝ × ℝ) : Prop :=
  p.2.1 < SHL_MIN ∨ p.2.1 > SHL_MAX ∨
    p.2.2.1 < ELB_MIN ∨ p.2.2.1 > ELB_MAX ∨ p.2.2.2 < WRI_MIN ∨ p.2.2.2 > WRI_MAX

/-- Variant of `set_arm_angles` whose range check ignores the base servo;
used only to analyse causes of `IK_ERROR`, it is not part of the source. -/
noncomputable def set_arm_angles_noBaseCheck (x y z grip_angle_d : ℝ) :
    Option (ℝ × ℝ × ℝ × ℝ) :=
  match arm_positions x y z grip_angle_d with
  | none => none
  | some p => if limitViolationNoBase p then none else some p

/-- Source `set_arm` (lines 257-323): returns the `int` status code and the
trace of device calls it performs itself.  On success the source writes the
shoulder, elbow and wrist servo pulses (lines 317-319) and returns
`IK_SUCCESS`; on any error it returns `IK_ERROR` having touched nothing. -/
noncomputable def set_arm (x y z grip_angle_d : ℝ) : ℤ × List Effect :=
  match set_arm_angles x y z grip_angle_d with
  | none => (IK_ERROR, [])
  | some p =>
    (IK_SUCCESS,
      [Effect.servo Joint.Shl (deg_to_us p.2.1), Effect.servo Joint.Elb (deg_to_us p.2.2.1),
        Effect.servo Joint.Wri (deg_to_us p.2.2.2)])

/-- Threshold height used for the monotonic-rejection property: one
millimetre above the largest height the arm could conceivably reach. -/
def Zthr : ℝ := BASE_HGT + GRIPPER + HUMERUS + ULNA + 1

/-- The shoulder angle `a1 + a2` of source line 288 comes out non-finite
(NaN or infinity): the `acos` argument of line 285 leaves `[-1, 1]`, or its
denominator `2 * HUMERUS * s_w_sqrt` is zero. -/
def shoulderNonfinite (x y z ga : ℝ) : Prop :=
  s_w_sqrt x y z ga = 0 ∨ shoulderArg x y z ga < -1 ∨ 1 < shoulderArg x y z ga

/-- The elbow angle of source line 295 comes out non-finite: the `acos`
argument leaves `[-1, 1]` (its denominator is a nonzero constant). -/
def elbowNonfinite (x y z ga : ℝ) : Prop :=
  elbowArg x y z ga < -1 ∨ 1 < elbowArg x y z ga

/-- Modelled from the spec: forward kinematics is not in the source; this
re-derives the gripper tip position (distance out, height, grip angle) from
the four mapped servo positions returned by the solver, undoing the per-joint
midpoint mapping of source lines 307-310 and re-tracing the geometry of
source lines 260-303 in the forward direction. -/
noncomputable def fk (p : ℝ × ℝ × ℝ × ℝ) : ℝ × ℝ × ℝ :=
  let shl_angle_d := (p.2.1 - SHL_MID) + 90
  let elb_angle_d := 90 - (p.2.2.1 - ELB_MID)
  let wri_angle_d := p.2.2.2 - WRI_MID
  let elb_angle_dn := -(180 - elb_angle_d)
  let grip_angle_d := wri_angle_d + elb_angle_dn + shl_angle_d
  let wy := HUMERUS * Real.cos (radians shl_angle_d) +
    ULNA * Real.cos (radians shl_angle_d + radians elb_angle_dn)
  let wz := HUMERUS * Real.sin (radians shl_angle_d) +
    ULNA * Real.sin (radians shl_angle_d + radians elb_angle_dn)
  (wy + Real.cos (radians grip_angle_d) * GRIPPER,
    wz + Real.sin (radians grip_angle_d) * GRIPPER + BASE_HGT, grip_angle_d)

/-- One frame of PS2 controller state, as consumed by `loop` (source lines
165-230): the four analog stick bytes, the held buttons and the
newly-pressed (edge) buttons that the loop body reads. -/
structure PadInput where
  LY : ℤ
  LX : ℤ
  RY : ℤ
  RX : ℤ
  R1 : Bool
  R2 : Bool
  L1 : Bool
  L2 : Bool
  BluePressed : Bool
  PadUpPressed : Bool
  PadDownPressed : Bool

/-- The five global state variables of the source (lines 109-113). -/
structure ArmState where
  Y : ℝ
  Z : ℝ
  GA : ℝ
  G : ℝ
  Speed : ℝ

/-- Initial values of the globals (source lines 109-113). -/
def initState : ArmState :=
  ⟨READY_Y, READY_Z, READY_GA, READY_G, SPEED_DEFAULT⟩

/-- Result of one `loop` iteration: the new global state, the device calls
made, the candidate pose locals `y_tmp`, `z_tmp`, `ga_tmp` as they stand at
the end of the iteration (the source discards them), and the `arm_move`
flag as it stands after line 204 (the source resets it at line 247 without
acting on it). -/
structure LoopResult where
  state : ArmState
  effects : List Effect
  y_tmp : ℝ
  z_tmp : ℝ
  ga_tmp : ℝ
  arm_move : Prop

/-- Source `loop` (lines 155-251).  Arduino `constrain(x, a, b)` is
`max a (min x b)` for `a ≤ b`, and `max(x, a)` is `max x a`.  Each block's
new value and effects are guarded by the block's entry condition exactly as
in the source; values computed under a false condition are unused. -/
noncomputable def loopStep (inp : PadInput) (s : ArmState) : LoopResult :=
  let ly_trans : ℤ := JS_MIDPOINT - inp.LY
  let _lx_trans : ℤ := inp.LX - JS_MIDPOINT
  let ry_trans : ℤ := JS_MIDPOINT - inp.RY
  let _rx_trans : ℤ := inp.RX - JS_MIDPOINT
  -- Y position block, lines 176-185
  let moveY : Prop := |ry_trans| > JS_DEADBAND
  let y1 : ℝ := s.Y + (ry_trans : ℝ) / JS_IK_SCALE * s.Speed
  let y2 : ℝ := max y1 Y_MIN
  let y_tmp : ℝ := if moveY then y2 else s.Y
  let effY : List Effect :=
    if moveY ∧ y2 = Y_MIN then [Effect.tone TONE_IK_ERROR TONE_DURATION] else []
  -- Z position block, lines 189-197
  let moveZ : Prop := inp.R1 = true ∨ inp.R2 = true
  let z1 : ℝ := if inp.R1 = true then s.Z + Z_INCREMENT * s.Speed else s.Z - Z_INCREMENT * s.Speed
  let z2 : ℝ := max z1 0
  let z_tmp : ℝ := if moveZ then z2 else s.Z
  -- Gripper angle block, lines 201-204
  let moveGA : Prop := |ly_trans| > JS_DEADBAND
  let ga_tmp : ℝ := if moveGA then s.GA - (ly_trans : ℝ) / JS_SCALE * s.Speed else s.GA
  -- Gripper jaw block, lines 208-221
  let jaw : Prop := inp.L1 = true ∨ inp.L2 = true
  let g1 : ℝ := if inp.L1 = true then s.G + G_INCREMENT else s.G - G_INCREMENT
  let g2 : ℝ := max GRI_MIN (min g1 GRI_MAX)
  let gAfterJaw : ℝ := if jaw then g2 else s.G
  let effJaw : List Effect :=
    if jaw then
      Effect.servo Joint.Gri (deg_to_us g2) ::
        (if g2 = GRI_MIN ∨ g2 = GRI_MAX then [Effect.tone TONE_IK_ERROR TONE_DURATION] else [])
    else []
  -- Fully open gripper, lines 224-227
  let gFinal : ℝ := if inp.BluePressed = true then GRI_MIN else gAfterJaw
  let effBlue : List Effect :=
    if inp.BluePressed = true then [Effect.servo Joint.Gri (deg_to_us GRI_MIN)] else []
  -- Speed block, lines 230-241
  let pad : Prop := inp.PadUpPressed = true ∨ inp.PadDownPressed = true
  let sp1 : ℝ :=
    if inp.PadUpPressed = true then s.Speed + SPEED_INCREMENT else s.Speed - SPEED_INCREMENT
  let sp2 : ℝ := max SPEED_MIN (min sp1 SPEED_MAX)
  let spFinal : ℝ := if pad then sp2 else s.Speed
  let effPad : List Effect := if pad then [Effect.tone (TONE_READY * sp2) TONE_DURATION] else []
  -- Lines 244-248 only reset arm_move; set_arm is never called, and Y, Z,
  -- GA are never assigned, so the committed pose fields carry over as is.
  let arm_move : Prop := moveY ∨ moveZ ∨ moveGA
  ⟨⟨s.Y, s.Z, s.GA, gFinal, spFinal⟩, effY ++ effJaw ++ effBlue ++ effPad, y_tmp, z_tmp, ga_tmp,
    arm_move⟩

/-- States of the globals reachable by running `loop` any number of times
from the initial values. -/
inductive Reachable : ArmState → Prop where
  | init : Reachable initState
  | step (inp : PadInput) (s : ArmState) : Reachable s → Reachable (loopStep inp s).state

/-- Effect predicate: a pulse write to one of the four arm-position servos
(base, shoulder, elbow or wrist - anything but the gripper jaw servo). -/
def armServoWrite : Effect → Prop
  | Effect.servo j _ => j ≠ Joint.Gri
  | Effect.tone _ _ => False

/-- Controller frame with the right stick pushed up (RY byte 28, a
deflection of 100 counts, well past the deadband) and everything else
released or centred. -/
def stickUpFrame : PadInput :=
  ⟨128, 128, 28, 128, false, false, false, false, false, false, false⟩

/-! Helper lemmas. -/

lemma GRIPPER_pos : (0 : ℝ) < GRIPPER := by norm_num [GRIPPER]

lemma HUMERUS_pos : (0 : ℝ) < HUMERUS := by norm_num [HUMERUS]

lemma ULNA_pos : (0 : ℝ) < ULNA := by norm_num [ULNA]

/-- Clamping inside `deg_to_us` produces `max 0 (min v 180)`. -/
lemma deg_to_us_eq_clamped (v : ℝ) :
    deg_to_us v =
      round (map_float (max SERVO_MIN_DEG (min v SERVO_MAX_DEG)) SERVO_MIN_DEG SERVO_MAX_DEG
        (SERVO_MIN_US : ℝ) (SERVO_MAX_US : ℝ)) := by
  simp only [deg_to_us, SERVO_MIN_DEG, SERVO_MAX_DEG]
  congr 2
  rcases lt_or_le v 0 with h0 | h0
  · rw [if_pos h0, if_neg (by norm_num : ¬(0 : ℝ) > 180),
      min_eq_left (show v ≤ (180 : ℝ) by linarith), max_eq_left h0.le]
  · rw [if_neg (not_lt.mpr h0)]
    rcases le_or_lt v 180 with h1 | h1
    · rw [if_neg (not_lt.mpr h1), min_eq_left h1, max_eq_right h0]
    · rw [if_pos h1, min_eq_right h1.le, max_eq_right (by norm_num)]

/-- Evaluation of `deg_to_us` on an already-clamped argument. -/
lemma deg_to_us_eval (v : ℝ) (h0 : 0 ≤ v) (h1 : v ≤ 180) :
    deg_to_us v = round (v * 10 + 600) := by
  simp only [deg_to_us, SERVO_MIN_DEG, SERVO_MAX_DEG]
  rw [if_neg (not_lt.mpr h0), if_neg (not_lt.mpr h1)]
  congr 1
  simp only [map_float, SERVO_MIN_US, SERVO_MAX_US]
  push_cast
  ring

/-- Output range of `deg_to_us`: always a legal pulse width. -/
lemma deg_to_us_mem_range (v : ℝ) :
    SERVO_MIN_US ≤ deg_to_us v ∧ deg_to_us v ≤ SERVO_MAX_US := by
  have hc : deg_to_us v =
      round ((max SERVO_MIN_DEG (min v SERVO_MAX_DEG)) * 10 + 600) := by
    rw [deg_to_us_eq_clamped]
    congr 1
    simp only [map_float, SERVO_MIN_US, SERVO_MAX_US, SERVO_MIN_DEG, SERVO_MAX_DEG]
    push_cast
    ring
  have hlow : (0 : ℝ) ≤ max SERVO_MIN_DEG (min v SERVO_MAX_DEG) := by
    simp only [SERVO_MIN_DEG]
    exact le_max_left _ _
  have hhigh : max SERVO_MIN_DEG (min v SERVO_MAX_DEG) ≤ 180 := by
    apply max_le (by norm_num [SERVO_MIN_DEG])
    exact le_trans (min_le_right _ _) (by norm_num [SERVO_MAX_DEG])
  constructor
  · rw [hc, SERVO_MIN_US, round_eq]
    have h6 : ((600 : ℤ) : ℝ) ≤ max SERVO_MIN_DEG (min v SERVO_MAX_DEG) * 10 + 600 + 1 / 2 := by
      push_cast
      nlinarith
    calc (600 : ℤ) = ⌊((600 : ℤ) : ℝ)⌋ := by rw [Int.floor_intCast]
    _ ≤ _ := Int.floor_le_floor h6
  · rw [hc, SERVO_MAX_US, round_eq]
    have h6 : max SERVO_MIN_DEG (min v SERVO_MAX_DEG) * 10 + 600 + 1 / 2 ≤ 2400 + 1 / 2 := by
      nlinarith
    calc ⌊max SERVO_MIN_DEG (min v SERVO_MAX_DEG) * 10 + 600 + 1 / 2⌋
        ≤ ⌊(2400 + 1 / 2 : ℝ)⌋ := Int.floor_le_floor h6
    _ = 2400 := by norm_num

/-- C7: the angle-to-pulse converter is total: it clamps to
`[SERVO_MIN_DEG, SERVO_MAX_DEG]`, then maps linearly onto
`[SERVO_MIN_US, SERVO_MAX_US]` with rounding; `deg_to_us` of anything at or
below the minimum degree is exactly `SERVO_MIN_US` (600), and the midpoint
maps exactly to `SERVO_MID_US` (1500). -/
theorem C7_converter_clamps_then_maps :
    (∀ v : ℝ,
      deg_to_us v =
        round (map_float (max SERVO_MIN_DEG (min v SERVO_MAX_DEG)) SERVO_MIN_DEG SERVO_MAX_DEG
          (SERVO_MIN_US : ℝ) (SERVO_MAX_US : ℝ))) ∧
    (∀ v : ℝ, v ≤ SERVO_MIN_DEG → deg_to_us v = SERVO_MIN_US) ∧
    deg_to_us (SERVO_MIN_DEG - 10) = SERVO_MIN_US ∧
    deg_to_us SERVO_MIN_DEG = SERVO_MIN_US ∧
    deg_to_us SERVO_MID_DEG = SERVO_MID_US ∧
    (∀ v : ℝ, SERVO_MIN_US ≤ deg_to_us v ∧ deg_to_us v ≤ SERVO_MAX_US) := by
  have hlow : ∀ v : ℝ, v ≤ SERVO_MIN_DEG → deg_to_us v = SERVO_MIN_US := by
    intro v hv
    rw [deg_to_us_eq_clamped]
    have : max SERVO_MIN_DEG (min v SERVO_MAX_DEG) = SERVO_MIN_DEG := by
      rw [max_eq_left]
      exact le_trans (min_le_left _ _) hv
    rw [this]
    simp only [map_float, SERVO_MIN_US, SERVO_MAX_US]
    norm_num [round_eq]
  refine ⟨deg_to_us_eq_clamped, hlow, ?_, ?_, ?_, deg_to_us_mem_range⟩
  · exact hlow _ (by norm_num [SERVO_MIN_DEG])
  · exact hlow _ le_rfl
  · rw [deg_to_us_eval _ (by norm_num [SERVO_MID_DEG]) (by norm_num [SERVO_MID_DEG])]
    norm_num [SERVO_MID_DEG, SERVO_MID_US, round_eq]

/-- Witness for C7 at the concrete input `-5`. -/
theorem C7_converter_clamps_then_maps_witness : deg_to_us (-5) = SERVO_MIN_US :=
  C7_converter_clamps_then_maps.2.1 (-5) (by norm_num [SERVO_MIN_DEG])

/-- Membership in a conditionally-empty list implies membership in its
non-empty branch. -/
lemma mem_of_mem_ite_nil {α : Type} {p : Prop} [Decidable p] {l : List α} {a : α}
    (h : a ∈ if p then l else []) : a ∈ l := by
  by_cases hp : p
  · rwa [if_pos hp] at h
  · rw [if_neg hp] at h
    exact absurd h (List.not_mem_nil a)

/-- Every device call a loop iteration makes targets the gripper jaw servo
or the speaker, never an arm-position servo. -/
lemma loopStep_no_arm_servo_write (inp : PadInput) (s : ArmState) :
    ∀ e ∈ (loopStep inp s).effects, ¬ armServoWrite e := by
  intro e he
  simp only [loopStep] at he
  rw [List.mem_append, List.mem_append, List.mem_append] at he
  rcases he with ((h | h) | h) | h
  · have h1 := List.mem_singleton.mp (mem_of_mem_ite_nil h)
    rw [h1]
    simp [armServoWrite]
  · rcases List.mem_cons.mp (mem_of_mem_ite_nil h) with h1 | h2
    · rw [h1]
      simp [armServoWrite]
    · have h3 := List.mem_singleton.mp (mem_of_mem_ite_nil h2)
      rw [h3]
      simp [armServoWrite]
  · have h1 := List.mem_singleton.mp (mem_of_mem_ite_nil h)
    rw [h1]
    simp [armServoWrite]
  · have h1 := List.mem_singleton.mp (mem_of_mem_ite_nil h)
    rw [h1]
    simp [armServoWrite]

/-- C10: the committed pose globals are never written after initialization:
each loop iteration copies `Y`, `Z`, `GA` unchanged into the next state and
issues no arm-position servo command, so every reachable state still holds
the ready pose `(170, 45, 0)`. -/
theorem C10_pose_globals_frozen :
    (∀ (inp : PadInput) (s : ArmState),
      (loopStep inp s).state.Y = s.Y ∧ (loopStep inp s).state.Z = s.Z ∧
        (loopStep inp s).state.GA = s.GA ∧
        ∀ e ∈ (loopStep inp s).effects, ¬ armServoWrite e) ∧
    ∀ s : ArmState, Reachable s → s.Y = READY_Y ∧ s.Z = READY_Z ∧ s.GA = READY_GA := by
  constructor
  · exact fun inp s => ⟨rfl, rfl, rfl, loopStep_no_arm_servo_write inp s⟩
  · intro s h
    induction h with
    | init => exact ⟨rfl, rfl, rfl⟩
    | step inp s _ ih => exact ih

/-- Witness for C10 at the initial state. -/
theorem C10_pose_globals_frozen_witness :
    initState.Y = READY_Y ∧ initState.Z = READY_Z ∧ initState.GA = READY_GA :=
  C10_pose_globals_frozen.2 initState Reachable.init

/-- C9: every reachable state keeps the gripper jaw opening inside
`[GRI_MIN, GRI_MAX]` and the speed scale inside `[SPEED_MIN, SPEED_MAX]`:
both are updated with their own clamp at the point of commit, starting from
in-range initial values, and never pass through the solver. -/
theorem C9_jaw_and_speed_clamped :
    ∀ s : ArmState, Reachable s →
      GRI_MIN ≤ s.G ∧ s.G ≤ GRI_MAX ∧ SPEED_MIN ≤ s.Speed ∧ s.Speed ≤ SPEED_MAX := by
  intro s h
  induction h with
  | init =>
    refine ⟨?_, ?_, ?_, ?_⟩ <;>
      norm_num [initState, READY_G, GRI_MID, GRI_MIN, GRI_MAX, SPEED_DEFAULT, SPEED_MIN, SPEED_MAX]
  | step inp s _ ih =>
    obtain ⟨ih1, ih2, ih3, ih4⟩ := ih
    have hGexpr : (loopStep inp s).state.G =
        if inp.BluePressed = true then GRI_MIN
        else if inp.L1 = true ∨ inp.L2 = true then
          max GRI_MIN
            (min (if inp.L1 = true then s.G + G_INCREMENT else s.G - G_INCREMENT) GRI_MAX)
        else s.G := rfl
    have hSexpr : (loopStep inp s).state.Speed =
        if inp.PadUpPressed = true ∨ inp.PadDownPressed = true then
          max SPEED_MIN
            (min (if inp.PadUpPressed = true then s.Speed + SPEED_INCREMENT
              else s.Speed - SPEED_INCREMENT) SPEED_MAX)
        else s.Speed := rfl
    refine ⟨?_, ?_, ?_, ?_⟩
    · rw [hGexpr]
      split_ifs <;> first | exact le_rfl | exact le_max_left _ _ | exact ih1
    · rw [hGexpr]
      split_ifs <;>
        first
          | exact ih2
          | exact max_le (by norm_num [GRI_MIN, GRI_MAX]) (min_le_right _ _)
          | norm_num [GRI_MIN, GRI_MAX]
    · rw [hSexpr]
      split_ifs <;> first | exact le_max_left _ _ | exact ih3
    · rw [hSexpr]
      split_ifs <;>
        first
          | exact ih4
          | exact max_le (by norm_num [SPEED_MIN, SPEED_MAX]) (min_le_right _ _)

/-- Witness for C9 at the initial state. -/
theorem C9_jaw_and_speed_clamped_witness :
    GRI_MIN ≤ initState.G ∧ initState.G ≤ GRI_MAX ∧
      SPEED_MIN ≤ initState.Speed ∧ initState.Speed ≤ SPEED_MAX :=
  C9_jaw_and_speed_clamped initState Reachable.init

/-- C1 is false of the code: with the right stick pushed up from the ready
state, a candidate pose is formed (`arm_move` is set and `y_tmp` becomes
172, differing from the committed `Y`), yet the iteration never invokes
`set_arm`, commits nothing (the state is unchanged), performs no device
call at all, and emits no error tone: the `if (arm_move)` block at source
lines 245-248 merely resets the flag, contradicting both the claim and the
source's own comment "Only perform IK calculations if arm motion is
needed". -/
theorem C1_candidate_never_reaches_solver :
    (loopStep stickUpFrame initState).arm_move ∧
      (loopStep stickUpFrame initState).y_tmp = 172 ∧
      (loopStep stickUpFrame initState).y_tmp ≠ initState.Y ∧
      (loopStep stickUpFrame initState).state = initState ∧
      (loopStep stickUpFrame initState).effects = [] := by
  refine ⟨?_, ?_, ?_, ?_, ?_⟩ <;>
    norm_num [loopStep, stickUpFrame, initState, READY_Y, READY_Z, READY_GA, READY_G, GRI_MID,
      SPEED_DEFAULT, JS_MIDPOINT, JS_DEADBAND, JS_IK_SCALE, JS_SCALE, Y_MIN, Z_INCREMENT,
      G_INCREMENT, GRI_MIN, GRI_MAX, SPEED_MIN, SPEED_MAX, SPEED_INCREMENT, TONE_READY,
      TONE_IK_ERROR, TONE_DURATION, max_def, min_def]

/-- Above the threshold height the wrist lands farther from the shoulder
than `HUMERUS + ULNA`, so the shoulder `acos` argument exceeds 1 and the
solve fails at the first `isnan`/`isinf` check. -/
lemma set_arm_angles_high_z (x y grip_angle_d z : ℝ) (hz : Zthr ≤ z) :
    set_arm_angles x y z grip_angle_d = none := by
  have hZ : Zthr = BASE_HGT + GRIPPER + HUMERUS + ULNA + 1 := rfl
  have hH : (0 : ℝ) < HUMERUS := HUMERUS_pos
  have hU : (0 : ℝ) < ULNA := ULNA_pos
  have hGoff : grip_off_z grip_angle_d ≤ GRIPPER := by
    have := Real.sin_le_one (radians grip_angle_d)
    calc grip_off_z grip_angle_d = Real.sin (radians grip_angle_d) * GRIPPER := rfl
    _ ≤ 1 * GRIPPER := by
        apply mul_le_mul_of_nonneg_right this GRIPPER_pos.le
    _ = GRIPPER := one_mul _
  have hwz : HUMERUS + ULNA + 1 ≤ wrist_z z grip_angle_d := by
    have hexp : wrist_z z grip_angle_d = (z - grip_off_z grip_angle_d) - BASE_HGT := rfl
    rw [hZ] at hz
    rw [hexp]
    linarith
  have hwznn : (0 : ℝ) ≤ wrist_z z grip_angle_d := by linarith
  have hAnn : (0 : ℝ) ≤ HUMERUS + ULNA + 1 := by linarith
  have hsw : (HUMERUS + ULNA + 1) * (HUMERUS + ULNA + 1) ≤ s_w x y z grip_angle_d := by
    have h1 := mul_self_le_mul_self hAnn hwz
    have h2 := mul_self_nonneg (wrist_y x y grip_angle_d)
    have : s_w x y z grip_angle_d =
        wrist_z z grip_angle_d * wrist_z z grip_angle_d +
          wrist_y x y grip_angle_d * wrist_y x y grip_angle_d := rfl
    rw [this]
    linarith
  have hswnn : (0 : ℝ) ≤ s_w x y z grip_angle_d := by nlinarith
  have hL : HUMERUS + ULNA + 1 ≤ s_w_sqrt x y z grip_angle_d := by
    have h1 : Real.sqrt ((HUMERUS + ULNA + 1) * (HUMERUS + ULNA + 1)) ≤
        s_w_sqrt x y z grip_angle_d := Real.sqrt_le_sqrt hsw
    rwa [Real.sqrt_mul_self hAnn] at h1
  have hLpos : 0 < s_w_sqrt x y z grip_angle_d := by linarith
  have hLL : s_w_sqrt x y z grip_angle_d * s_w_sqrt x y z grip_angle_d =
      s_w x y z grip_angle_d := Real.mul_self_sqrt hswnn
  have harg : 1 < shoulderArg x y z grip_angle_d := by
    have hD : 0 < 2 * HUMERUS * s_w_sqrt x y z grip_angle_d := by positivity
    rw [shoulderArg, lt_div_iff₀ hD]
    have f1 : 0 ≤ s_w_sqrt x y z grip_angle_d - HUMERUS - ULNA - 1 := by linarith
    have f2 : 0 ≤ s_w_sqrt x y z grip_angle_d - HUMERUS + ULNA + 1 := by linarith
    have hprod := mul_nonneg f1 f2
    have hhum : hum_sq = HUMERUS * HUMERUS := rfl
    have huln : uln_sq = ULNA * ULNA := rfl
    nlinarith [hprod, hLL]
  have hacos : acosD (shoulderArg x y z grip_angle_d) = none := by
    rw [acosD, if_neg]
    rintro ⟨-, h2⟩
    linarith
  have harm : arm_positions x y z grip_angle_d = none := by
    rw [arm_positions, if_neg (ne_of_gt hLpos), hacos]
  rw [set_arm_angles, harm]

/-- C8: for any x, y and grip angle there is a height threshold, strictly
above `HUMERUS + ULNA + GRIPPER`, past which every requested z makes the
solver return `IK_ERROR` (Unreachable). -/
theorem C8_high_z_always_unreachable :
    HUMERUS + ULNA + GRIPPER < Zthr ∧
      ∀ x y grip_angle_d z : ℝ, Zthr ≤ z → (set_arm x y z grip_angle_d).1 = IK_ERROR := by
  constructor
  · norm_num [Zthr, HUMERUS, ULNA, GRIPPER, BASE_HGT]
  · intro x y ga z hz
    rw [set_arm, set_arm_angles_high_z x y ga z hz]

/-- Witness for C8 at height 800 mm from the ready radial distance. -/
theorem C8_high_z_always_unreachable_witness :
    Zthr ≤ (800 : ℝ) ∧ (set_arm 0 170 800 0).1 = IK_ERROR := by
  have hthr : Zthr ≤ (800 : ℝ) := by
    norm_num [Zthr, HUMERUS, ULNA, GRIPPER, BASE_HGT]
  exact ⟨hthr, C8_high_z_always_unreachable.2 0 170 0 800 hthr⟩

/-- The guarded `acos` fails exactly when its argument leaves `[-1, 1]`. -/
lemma acosD_eq_none_iff (u : ℝ) : acosD u = none ↔ u < -1 ∨ 1 < u := by
  rw [acosD]
  split_ifs with h
  · simp only [reduceCtorEq, false_iff]
    push_neg
    exact ⟨h.1, h.2⟩
  · push_neg at h
    simp only [true_iff]
    by_cases h1 : -1 ≤ u
    · exact Or.inr (h h1)
    · exact Or.inl (lt_of_not_le h1)

/-- Position computation fails exactly on a non-finite shoulder or elbow
angle. -/
lemma arm_positions_eq_none_iff (x y z ga : ℝ) :
    arm_positions x y z ga = none ↔ shoulderNonfinite x y z ga ∨ elbowNonfinite x y z ga := by
  by_cases h0 : s_w_sqrt x y z ga = 0
  · simp [arm_positions, h0, shoulderNonfinite]
  · by_cases h1 : acosD (shoulderArg x y z ga) = none
    · have hs : shoulderNonfinite x y z ga := Or.inr ((acosD_eq_none_iff _).mp h1)
      simp [arm_positions, h0, h1, hs]
    · obtain ⟨a2v, ha2⟩ := Option.ne_none_iff_exists'.mp h1
      by_cases h2 : acosD (elbowArg x y z ga) = none
      · have he : elbowNonfinite x y z ga := (acosD_eq_none_iff _).mp h2
        simp [arm_positions, h0, ha2, h2, he]
      · obtain ⟨ev, hev⟩ := Option.ne_none_iff_exists'.mp h2
        have hsn : ¬ shoulderNonfinite x y z ga := by
          rintro (hA | hB)
          · exact h0 hA
          · exact h1 ((acosD_eq_none_iff _).mpr hB)
        have hen : ¬ elbowNonfinite x y z ga := fun h => h2 ((acosD_eq_none_iff _).mpr h)
        simp [arm_positions, h0, ha2, hev, hsn, hen]

/-- The full solve fails exactly when position computation fails or the
computed positions violate a servo range limit. -/
lemma set_arm_angles_eq_none_iff (x y z ga : ℝ) :
    set_arm_angles x y z ga = none ↔
      arm_positions x y z ga = none ∨
        ∃ p, arm_positions x y z ga = some p ∧ limitViolation p := by
  cases harm : arm_positions x y z ga with
  | none => simp [set_arm_angles, harm]
  | some p =>
    simp only [set_arm_angles, harm]
    split_ifs with hv
    · simp [hv]
    · simp [hv]

/-- C2: `set_arm` returns `IK_ERROR` exactly when the shoulder angle is
non-finite, the elbow angle is non-finite, or one of the four mapped servo
positions violates its `[MIN, MAX]` limits; on every error it performs no
servo write at all, and every pulse it ever writes lies inside the legal
`[SERVO_MIN_US, SERVO_MAX_US]` band (no non-finite value reaches
actuation). -/
theorem C2_error_cases_exact_and_fail_closed :
    ∀ x y z grip_angle_d : ℝ,
      ((set_arm x y z grip_angle_d).1 = IK_ERROR ↔
        shoulderNonfinite x y z grip_angle_d ∨ elbowNonfinite x y z grip_angle_d ∨
          ∃ p, arm_positions x y z grip_angle_d = some p ∧ limitViolation p) ∧
      ((set_arm x y z grip_angle_d).1 = IK_ERROR → (set_arm x y z grip_angle_d).2 = []) ∧
      (∀ j us, Effect.servo j us ∈ (set_arm x y z grip_angle_d).2 →
        SERVO_MIN_US ≤ us ∧ us ≤ SERVO_MAX_US) := by
  intro x y z ga
  have hstatus : (set_arm x y z ga).1 = IK_ERROR ↔ set_arm_angles x y z ga = none := by
    cases h : set_arm_angles x y z ga with
    | none => simp [set_arm, h]
    | some p => simp [set_arm, h, IK_SUCCESS, IK_ERROR]
  refine ⟨?_, ?_, ?_⟩
  · rw [hstatus, set_arm_angles_eq_none_iff, arm_positions_eq_none_iff]
    tauto
  · intro herr
    rw [hstatus] at herr
    simp [set_arm, herr]
  · intro j us hmem
    cases h : set_arm_angles x y z ga with
    | none => simp [set_arm, h] at hmem
    | some p =>
      simp only [set_arm, h, List.mem_cons, List.mem_singleton, List.not_mem_nil,
        or_false] at hmem
      rcases hmem with h1 | h1 | h1 <;>
        · obtain ⟨-, rfl⟩ := Effect.servo.inj h1
          exact deg_to_us_mem_range _

/-- Witness for C2 at a concrete unreachable input (height 800 mm): the
solve errors and performs no device call. -/
theorem C2_error_cases_exact_and_fail_closed_witness :
    (set_arm 0 170 800 0).1 = IK_ERROR ∧ (set_arm 0 170 800 0).2 = [] := by
  have herr : (set_arm 0 170 800 0).1 = IK_ERROR := by
    rw [set_arm, set_arm_angles_high_z 0 170 0 800
      (by norm_num [Zthr, BASE_HGT, GRIPPER, HUMERUS, ULNA])]
  exact ⟨herr, (C2_error_cases_exact_and_fail_closed 0 170 800 0).2.1 herr⟩

/-- Small helper: `arcsin` dominates the identity on `[0, 1]`. -/
lemma self_le_arcsin {x : ℝ} (h0 : 0 ≤ x) (h1 : x ≤ 1) : x ≤ arcsin x := by
  have h2 : Real.sin (arcsin x) = x := Real.sin_arcsin (by linarith) h1
  have h3 : 0 ≤ arcsin x := Real.arcsin_nonneg.mpr h0
  calc x = Real.sin (arcsin x) := h2.symm
  _ ≤ arcsin x := Real.sin_le h3

/-- Small helper: `arctan` is dominated by the identity on `[0, ∞)`. -/
lemma arctan_le_self {x : ℝ} (h : 0 ≤ x) : arctan x ≤ x := by
  rcases eq_or_lt_of_le h with h0 | h0
  · rw [← h0, arctan_zero]
  · have h1 : 0 < arctan x := by
      have := arctan_strictMono h0
      rwa [arctan_zero] at this
    have h2 := Real.lt_tan h1 (arctan_lt_pi_div_two x)
    rw [Real.tan_arctan] at h2
    exact h2.le

/-- Small helper: `arccos` is antitone. -/
lemma arccos_antitone {x y : ℝ} (h : x ≤ y) : arccos y ≤ arccos x := by
  rw [Real.arccos_eq_pi_div_two_sub_arcsin, Real.arccos_eq_pi_div_two_sub_arcsin]
  have := Real.monotone_arcsin h
  linarith

/-- Small helper: `arcsin (1/2) = π/6`. -/
lemma arcsin_one_half : arcsin (1 / 2 : ℝ) = π / 6 := by
  rw [← Real.sin_pi_div_six]
  exact Real.arcsin_sin (by linarith [pi_pos]) (by linarith [pi_pos])

/-- Degree conversion bounded above by a bound in radians. -/
lemma degrees_le {r c : ℝ} (h : r ≤ c * π / 180) : degrees r ≤ c := by
  rw [degrees]
  have hπ : 0 < π := pi_pos
  have h2 : r * (180 / π) ≤ c * π / 180 * (180 / π) :=
    mul_le_mul_of_nonneg_right h (by positivity)
  have h3 : c * π / 180 * (180 / π) = c := by field_simp
  linarith

/-- Degree conversion bounded below by a bound in radians. -/
lemma le_degrees {r c : ℝ} (h : c * π / 180 ≤ r) : c ≤ degrees r := by
  rw [degrees]
  have hπ : 0 < π := pi_pos
  have h2 : c * π / 180 * (180 / π) ≤ r * (180 / π) :=
    mul_le_mul_of_nonneg_right h (by positivity)
  have h3 : c * π / 180 * (180 / π) = c := by field_simp
  linarith

set_option maxHeartbeats 1000000 in
/-- Workhorse for the ready-pose claims: at radial distance 170 mm, height
45 mm and grip angle 0, the position computation succeeds and the shoulder,
elbow and wrist servo positions all satisfy their range limits; the base
position is `BAS_MID` plus the base angle in degrees. -/
lemma arm_positions_ready (x y : ℝ) (hr : rdist x y = 170) :
    ∃ p : ℝ × ℝ × ℝ × ℝ,
      arm_positions x y 45 0 = some p ∧
      p.1 = BAS_MID + degrees (bas_angle_r x y) ∧
      ¬ p.2.1 < SHL_MIN ∧ ¬ p.2.1 > SHL_MAX ∧ ¬ p.2.2.1 < ELB_MIN ∧ ¬ p.2.2.1 > ELB_MAX ∧
      ¬ p.2.2.2 < WRI_MIN ∧ ¬ p.2.2.2 > WRI_MAX := by
  have hπ : 0 < π := pi_pos
  have hπu : π < 3.141593 := pi_lt_d6
  have hπl : 3.141592 < π := pi_gt_d6
  have hwz : wrist_z 45 0 = -35.9625 := by
    rw [wrist_z, grip_off_z, radians]
    norm_num [BASE_HGT]
  have hwy : wrist_y x y 0 = 96.975 := by
    rw [wrist_y, hr, grip_off_y, radians]
    norm_num [GRIPPER]
  have hsw : s_w x y 45 0 = 10697.45203125 := by
    rw [s_w, hwz, hwy]
    norm_num
  have hL103 : (103 : ℝ) ≤ s_w_sqrt x y 45 0 := by
    rw [s_w_sqrt, hsw]
    rw [show (103 : ℝ) = Real.sqrt (103 ^ 2) from (Real.sqrt_sq (by norm_num)).symm]
    apply Real.sqrt_le_sqrt
    norm_num
  have hL104 : s_w_sqrt x y 45 0 ≤ 104 := by
    rw [s_w_sqrt, hsw]
    rw [show (104 : ℝ) = Real.sqrt (104 ^ 2) from (Real.sqrt_sq (by norm_num)).symm]
    apply Real.sqrt_le_sqrt
    norm_num
  have hLpos : 0 < s_w_sqrt x y 45 0 := by linarith
  have hnum : (hum_sq - uln_sq) + s_w x y 45 0 = -25766.68875 := by
    rw [hsw]
    norm_num [hum_sq, uln_sq, HUMERUS, ULNA]
  have hD : 0 < 2 * HUMERUS * s_w_sqrt x y 45 0 := by
    have := HUMERUS_pos
    positivity
  have hcu : shoulderArg x y 45 0 ≤ -0.47 := by
    rw [shoulderArg, div_le_iff₀ hD, hnum]
    have h1 : 2 * HUMERUS * s_w_sqrt x y 45 0 ≤ 2 * HUMERUS * 104 :=
      mul_le_mul_of_nonneg_left hL104 (by linarith [HUMERUS_pos])
    rw [HUMERUS] at h1 ⊢
    nlinarith
  have hcl : (-0.5 : ℝ) ≤ shoulderArg x y 45 0 := by
    rw [shoulderArg, le_div_iff₀ hD, hnum]
    have h1 : 2 * HUMERUS * 103 ≤ 2 * HUMERUS * s_w_sqrt x y 45 0 :=
      mul_le_mul_of_nonneg_left hL103 (by linarith [HUMERUS_pos])
    rw [HUMERUS] at h1 ⊢
    nlinarith
  have hdomS : -1 ≤ shoulderArg x y 45 0 ∧ shoulderArg x y 45 0 ≤ 1 :=
    ⟨by linarith, by linarith⟩
  have ha2s : acosD (shoulderArg x y 45 0) = some (arccos (shoulderArg x y 45 0)) := by
    rw [acosD, if_pos hdomS]
  have ha2u : arccos (shoulderArg x y 45 0) ≤ π / 2 + π / 6 := by
    have h1 : arccos (shoulderArg x y 45 0) ≤ arccos (-(1 / 2) : ℝ) :=
      arccos_antitone (by linarith)
    have h2 : arccos (-(1 / 2) : ℝ) = π / 2 + π / 6 := by
      rw [Real.arccos_eq_pi_div_two_sub_arcsin, Real.arcsin_neg, arcsin_one_half]
      ring
    linarith
  have ha2l : π / 2 + 0.47 ≤ arccos (shoulderArg x y 45 0) := by
    rw [Real.arccos_eq_pi_div_two_sub_arcsin]
    have h1 : arcsin (shoulderArg x y 45 0) ≤ arcsin (-(0.47) : ℝ) :=
      Real.monotone_arcsin (by linarith)
    have h2 : arcsin (-(0.47) : ℝ) = -arcsin (0.47 : ℝ) := Real.arcsin_neg _
    have h3 : (0.47 : ℝ) ≤ arcsin (0.47 : ℝ) := self_le_arcsin (by norm_num) (by norm_num)
    linarith
  have ha1v : a1 x y 45 0 = arctan (-35.9625 / 96.975) := by
    rw [a1, hwz, hwy, atan2, if_pos (by norm_num : (0 : ℝ) < 96.975)]
  have ha1u : a1 x y 45 0 ≤ 0 := by
    rw [ha1v]
    have h1 : arctan (-35.9625 / 96.975 : ℝ) ≤ arctan 0 :=
      arctan_strictMono.monotone (by norm_num)
    rwa [arctan_zero] at h1
  have ha1l : (-0.38 : ℝ) ≤ a1 x y 45 0 := by
    rw [ha1v]
    have h0 : (-35.9625 / 96.975 : ℝ) = -(35.9625 / 96.975) := by ring
    rw [h0, Real.arctan_neg]
    have h1 : arctan (35.9625 / 96.975 : ℝ) ≤ 35.9625 / 96.975 :=
      arctan_le_self (by norm_num)
    have h2 : (35.9625 / 96.975 : ℝ) ≤ 0.38 := by norm_num
    linarith
  have hshl : π / 2 + 0.09 ≤ a1 x y 45 0 + arccos (shoulderArg x y 45 0) := by linarith
  have hshu : a1 x y 45 0 + arccos (shoulderArg x y 45 0) ≤ π / 2 + π / 6 := by linarith
  have helbl : (0 : ℝ) ≤ elbowArg x y 45 0 := by
    rw [elbowArg, hsw]
    rw [hum_sq, uln_sq, HUMERUS, ULNA]
    norm_num
  have helbu : elbowArg x y 45 0 ≤ 0.96 := by
    rw [elbowArg, hsw]
    rw [hum_sq, uln_sq, HUMERUS, ULNA]
    rw [div_le_iff₀ (by norm_num)]
    norm_num
  have hdomE : -1 ≤ elbowArg x y 45 0 ∧ elbowArg x y 45 0 ≤ 1 :=
    ⟨by linarith, by linarith⟩
  have hevs : acosD (elbowArg x y 45 0) = some (arccos (elbowArg x y 45 0)) := by
    rw [acosD, if_pos hdomE]
  have heu : arccos (elbowArg x y 45 0) ≤ π / 2 :=
    Real.arccos_le_pi_div_two.mpr helbl
  have hel : 13 * π / 180 ≤ arccos (elbowArg x y 45 0) := by
    have hc13 : elbowArg x y 45 0 ≤ Real.cos (13 * π / 180) := by
      have h1 : 1 - (13 * π / 180) ^ 2 / 2 ≤ Real.cos (13 * π / 180) :=
        Real.one_sub_sq_div_two_le_cos
      have h2 : (13 * π / 180) ^ 2 ≤ (13 * 3.141593 / 180) ^ 2 := by
        have hb : 13 * π / 180 ≤ 13 * 3.141593 / 180 := by linarith
        have hnn : (0 : ℝ) ≤ 13 * π / 180 := by positivity
        nlinarith
      nlinarith
    have h3 : arccos (Real.cos (13 * π / 180)) ≤ arccos (elbowArg x y 45 0) :=
      arccos_antitone hc13
    rwa [Real.arccos_cos (by positivity) (by linarith)] at h3
  have hshl_d : (90 : ℝ) ≤ degrees (a1 x y 45 0 + arccos (shoulderArg x y 45 0)) := by
    apply le_degrees
    have he90 : (90 : ℝ) * π / 180 = π / 2 := by ring
    rw [he90]
    linarith
  have hshu_d : degrees (a1 x y 45 0 + arccos (shoulderArg x y 45 0)) ≤ 120 := by
    apply degrees_le
    have he120 : (120 : ℝ) * π / 180 = π / 2 + π / 6 := by ring
    rw [he120]
    linarith
  have hel_d : (13 : ℝ) ≤ degrees (arccos (elbowArg x y 45 0)) := by
    apply le_degrees
    linarith
  have heu_d : degrees (arccos (elbowArg x y 45 0)) ≤ 90 := by
    apply degrees_le
    have he90 : (90 : ℝ) * π / 180 = π / 2 := by ring
    rw [he90]
    linarith
  refine ⟨(BAS_MID + degrees (bas_angle_r x y),
      SHL_MID + (degrees (a1 x y 45 0 + arccos (shoulderArg x y 45 0)) - 90),
      ELB_MID - (degrees (arccos (elbowArg x y 45 0)) - 90),
      WRI_MID + ((0 - -(180 - degrees (arccos (elbowArg x y 45 0)))) -
        degrees (a1 x y 45 0 + arccos (shoulderArg x y 45 0)))), ?_, rfl, ?_, ?_, ?_, ?_, ?_, ?_⟩
  · rw [arm_positions, if_neg (ne_of_gt hLpos), ha2s, hevs]
  · simp only [SHL_MID, SHL_MIN]
    intro hcon
    linarith
  · simp only [SHL_MID, SHL_MAX]
    intro hcon
    linarith
  · simp only [ELB_MID, ELB_MIN]
    intro hcon
    linarith
  · simp only [ELB_MID, ELB_MAX]
    intro hcon
    linarith
  · simp only [WRI_MID, WRI_MIN]
    intro hcon
    linarith
  · simp only [WRI_MID, WRI_MAX]
    intro hcon
    linarith

/-- Strict version of `le_degrees`. -/
lemma lt_degrees {r c : ℝ} (h : c * π / 180 < r) : c < degrees r := by
  rw [degrees]
  have hπ : 0 < π := pi_pos
  have h2 : c * π / 180 * (180 / π) < r * (180 / π) :=
    mul_lt_mul_of_pos_right h (by positivity)
  have h3 : c * π / 180 * (180 / π) = c := by field_simp
  linarith

/-- The base component of any computed position tuple is `BAS_MID` plus the
base angle in degrees. -/
lemma arm_positions_base {x y z ga : ℝ} {p : ℝ × ℝ × ℝ × ℝ}
    (h : arm_positions x y z ga = some p) :
    p.1 = BAS_MID + degrees (bas_angle_r x y) := by
  rw [arm_positions] at h
  split_ifs at h
  cases hs : acosD (shoulderArg x y z ga) with
  | none =>
    rw [hs] at h
    exact absurd h (by simp)
  | some a2 =>
    rw [hs] at h
    cases he : acosD (elbowArg x y z ga) with
    | none =>
      rw [he] at h
      exact absurd h (by simp)
    | some ev =>
      rw [he] at h
      have hp := Option.some.inj h
      rw [← hp]

/-- Ready pose: the full solve at `(x, y, z, ga) = (0, 170, 45, 0)` passes
every check; the base lands exactly at midpoint and the other three joints
inside their ranges. -/
lemma ready_solve :
    ∃ p : ℝ × ℝ × ℝ × ℝ,
      set_arm_angles 0 170 45 0 = some p ∧ p.1 = 90 ∧
      SHL_MIN ≤ p.2.1 ∧ p.2.1 ≤ SHL_MAX ∧ ELB_MIN ≤ p.2.2.1 ∧ p.2.2.1 ≤ ELB_MAX ∧
      WRI_MIN ≤ p.2.2.2 ∧ p.2.2.2 ≤ WRI_MAX := by
  have hr : rdist 0 170 = 170 := by
    rw [rdist, show (0 * 0 + 170 * 170 : ℝ) = 170 ^ 2 by norm_num,
      Real.sqrt_sq (by norm_num : (0 : ℝ) ≤ 170)]
  obtain ⟨p, hp, hb, h1, h2, h3, h4, h5, h6⟩ := arm_positions_ready 0 170 hr
  have hb90 : p.1 = 90 := by
    rw [hb, bas_angle_r, atan2, if_pos (by norm_num : (0 : ℝ) < 170),
      show (0 : ℝ) / 170 = 0 by norm_num, arctan_zero, degrees, zero_mul, BAS_MID, add_zero]
  have hnv : ¬ limitViolation p := by
    rw [limitViolation]
    push_neg
    exact ⟨by rw [hb90]; norm_num [BAS_MIN], by rw [hb90]; norm_num [BAS_MAX],
      not_lt.mp h1, not_lt.mp h2, not_lt.mp h3, not_lt.mp h4, not_lt.mp h5, not_lt.mp h6⟩
  have hsome : set_arm_angles 0 170 45 0 = some p := by
    rw [set_arm_angles, hp]
    exact if_neg hnv
  exact ⟨p, hsome, hb90,
    not_lt.mp h1, not_lt.mp h2, not_lt.mp h3, not_lt.mp h4, not_lt.mp h5, not_lt.mp h6⟩

/-- C4: the documented ready pose x = 0, y = 170, z = 45, grip angle 0
returns Success under the documented arm geometry, and all four mapped
servo positions lie inside their `[MIN, MAX]` bounds. -/
theorem C4_ready_pose_succeeds_in_limits :
    ∃ p : ℝ × ℝ × ℝ × ℝ,
      set_arm_angles 0 170 45 0 = some p ∧ (set_arm 0 170 45 0).1 = IK_SUCCESS ∧
      BAS_MIN ≤ p.1 ∧ p.1 ≤ BAS_MAX ∧ SHL_MIN ≤ p.2.1 ∧ p.2.1 ≤ SHL_MAX ∧
      ELB_MIN ≤ p.2.2.1 ∧ p.2.2.1 ≤ ELB_MAX ∧ WRI_MIN ≤ p.2.2.2 ∧ p.2.2.2 ≤ WRI_MAX := by
  obtain ⟨p, hp, hb90, h1, h2, h3, h4, h5, h6⟩ := ready_solve
  refine ⟨p, hp, ?_, ?_, ?_, h1, h2, h3, h4, h5, h6⟩
  · rw [set_arm, hp]
  · rw [hb90]
    norm_num [BAS_MIN]
  · rw [hb90]
    norm_num [BAS_MAX]

/-- C3 as stated is false of the code: on this successful solve the solver
itself performs device calls (its effect trace is non-empty), rather than
leaving every pulse write to the caller. -/
theorem C3_counterexample_solver_writes_devices :
    (set_arm 0 170 45 0).1 = IK_SUCCESS ∧ (set_arm 0 170 45 0).2 ≠ [] := by
  obtain ⟨p, hp, -⟩ := ready_solve
  refine ⟨?_, ?_⟩
  · rw [set_arm, hp]
  · rw [set_arm, hp]
    simp

/-- C3 amended: on a successful solve `set_arm` returns only the status
code `IK_SUCCESS` (not the joint angles) and performs the pulse writes
itself: exactly three of them, all targeting the shoulder, elbow or wrist
servo - the caller performs none, and neither base nor gripper is written. -/
theorem C3_success_solver_itself_writes_three_arm_servos :
    ∀ x y z grip_angle_d : ℝ,
      (set_arm x y z grip_angle_d).1 = IK_SUCCESS →
        (set_arm x y z grip_angle_d).2.length = 3 ∧
        ∀ e ∈ (set_arm x y z grip_angle_d).2, ∃ us : ℤ,
          e = Effect.servo Joint.Shl us ∨ e = Effect.servo Joint.Elb us ∨
            e = Effect.servo Joint.Wri us := by
  intro x y z ga hsucc
  cases h : set_arm_angles x y z ga with
  | none =>
    rw [set_arm, h] at hsucc
    exact absurd hsucc (by norm_num [IK_ERROR, IK_SUCCESS])
  | some p =>
    rw [set_arm, h]
    refine ⟨rfl, ?_⟩
    intro e he
    rcases List.mem_cons.mp he with h1 | he2
    · exact ⟨deg_to_us p.2.1, Or.inl h1⟩
    · rcases List.mem_cons.mp he2 with h1 | he3
      · exact ⟨deg_to_us p.2.2.1, Or.inr (Or.inl h1)⟩
      · have h1 := List.mem_singleton.mp he3
        exact ⟨deg_to_us p.2.2.2, Or.inr (Or.inr h1)⟩

/-- Witness for the amended C3 at the ready pose. -/
theorem C3_success_solver_itself_writes_three_arm_servos_witness :
    (set_arm 0 170 45 0).1 = IK_SUCCESS ∧ (set_arm 0 170 45 0).2.length = 3 := by
  obtain ⟨p, hp, -⟩ := ready_solve
  have hsucc : (set_arm 0 170 45 0).1 = IK_SUCCESS := by rw [set_arm, hp]
  exact ⟨hsucc, (C3_success_solver_itself_writes_three_arm_servos 0 170 45 0 hsucc).1⟩

/-- C5 as stated is false of the code: at `(x, y) = (168, -26)` (radial
distance exactly 170, same plane geometry as the ready pose) the solve
fails with `IK_ERROR` solely because the base position `bas_pos` exceeds
`BAS_MAX`: the very same input passes the variant whose range check skips
the base comparisons. -/
theorem C5_counterexample_base_rejects :
    (set_arm 168 (-26) 45 0).1 = IK_ERROR ∧
      (set_arm_angles_noBaseCheck 168 (-26) 45 0).isSome = true := by
  have hr : rdist 168 (-26) = 170 := by
    rw [rdist, show (168 * 168 + -26 * -26 : ℝ) = 170 ^ 2 by norm_num,
      Real.sqrt_sq (by norm_num : (0 : ℝ) ≤ 170)]
  obtain ⟨p, hp, hb, h1, h2, h3, h4, h5, h6⟩ := arm_positions_ready 168 (-26) hr
  have hatan : bas_angle_r 168 (-26) = arctan (168 / (-26 : ℝ)) + π := by
    rw [bas_angle_r, atan2, if_neg (by norm_num : ¬(0 : ℝ) < -26),
      if_pos (by norm_num : (-26 : ℝ) < 0), if_pos (by norm_num : (0 : ℝ) ≤ 168)]
  have hbgt : p.1 > BAS_MAX := by
    rw [hb, hatan, BAS_MID, BAS_MAX]
    have harc : arctan (168 / (-26 : ℝ)) = -arctan (84 / 13 : ℝ) := by
      rw [show (168 / (-26 : ℝ)) = -(84 / 13 : ℝ) by norm_num, Real.arctan_neg]
    rw [harc]
    have hπ : 0 < π := pi_pos
    have hlt : (90 : ℝ) * π / 180 < -arctan (84 / 13 : ℝ) + π := by
      have harctan := arctan_lt_pi_div_two (84 / 13 : ℝ)
      have h90 : (90 : ℝ) * π / 180 = π / 2 := by ring
      linarith
    have := lt_degrees hlt
    linarith
  have hviol : limitViolation p := Or.inr (Or.inl hbgt)
  have hnb : ¬ limitViolationNoBase p := by
    rw [limitViolationNoBase]
    push_neg
    exact ⟨not_lt.mp h1, not_lt.mp h2, not_lt.mp h3, not_lt.mp h4, not_lt.mp h5, not_lt.mp h6⟩
  have hnone : set_arm_angles 168 (-26) 45 0 = none := by
    rw [set_arm_angles, hp]
    exact if_pos hviol
  have hsome : set_arm_angles_noBaseCheck 168 (-26) 45 0 = some p := by
    rw [set_arm_angles_noBaseCheck, hp]
    exact if_neg hnb
  constructor
  · rw [set_arm, hnone]
  · rw [hsome]
    rfl

/-- C5 amended: the base angle IS subject to the range check of source line
313 and can by itself reject a pose (see the counterexample); however, for
every input with `y ≥ 0` - in particular everything the control loop can
request, since it clamps y to `Y_MIN = 100` - the base position stays in
`[BAS_MIN, BAS_MAX]` and the base check never fires: the solve behaves
identically with and without the base comparisons. -/
theorem C5_base_never_rejects_for_y_nonneg :
    ∀ x y z grip_angle_d : ℝ, 0 ≤ y →
      set_arm_angles x y z grip_angle_d = set_arm_angles_noBaseCheck x y z grip_angle_d := by
  intro x y z ga hy
  cases harm : arm_positions x y z ga with
  | none => rw [set_arm_angles, set_arm_angles_noBaseCheck, harm]
  | some p =>
    have hpb := arm_positions_base harm
    have hrange : -(π / 2) ≤ atan2 x y ∧ atan2 x y ≤ π / 2 := by
      rcases lt_or_eq_of_le hy with hy0 | hy0
      · rw [atan2, if_pos hy0]
        exact ⟨(neg_pi_div_two_lt_arctan _).le, (arctan_lt_pi_div_two _).le⟩
      · rw [atan2, if_neg (by rw [← hy0]; exact lt_irrefl 0),
          if_neg (by rw [← hy0]; exact lt_irrefl 0)]
        have hπ : 0 < π := pi_pos
        split_ifs <;> constructor <;> linarith
    have hdl : (-90 : ℝ) ≤ degrees (bas_angle_r x y) := by
      apply le_degrees
      rw [bas_angle_r]
      have he : (-90 : ℝ) * π / 180 = -(π / 2) := by ring
      rw [he]
      exact hrange.1
    have hdu : degrees (bas_angle_r x y) ≤ 90 := by
      apply degrees_le
      rw [bas_angle_r]
      have he : (90 : ℝ) * π / 180 = π / 2 := by ring
      rw [he]
      exact hrange.2
    have hbl : ¬ p.1 < BAS_MIN := by
      rw [hpb, BAS_MID, BAS_MIN]
      intro hcon
      linarith
    have hbu : ¬ p.1 > BAS_MAX := by
      rw [hpb, BAS_MID, BAS_MAX]
      intro hcon
      linarith
    have hiff : limitViolation p ↔ limitViolationNoBase p := by
      rw [limitViolation, limitViolationNoBase]
      constructor
      · rintro (hc | hc | hc)
        · exact absurd hc hbl
        · exact absurd hc hbu
        · exact hc
      · intro hc
        exact Or.inr (Or.inr hc)
    rw [set_arm_angles, set_arm_angles_noBaseCheck, harm]
    exact if_congr hiff rfl rfl

/-- Witness for the amended C5 at the ready pose input. -/
theorem C5_base_never_rejects_for_y_nonneg_witness :
    (0 : ℝ) ≤ 170 ∧
      set_arm_angles 0 170 45 0 = set_arm_angles_noBaseCheck 0 170 45 0 :=
  ⟨by norm_num, C5_base_never_rejects_for_y_nonneg 0 170 45 0 (by norm_num)⟩

/-- Degree-radian round trip. -/
lemma radians_degrees (r : ℝ) : radians (degrees r) = r := by
  rw [radians, degrees]
  have hπ : π ≠ 0 := pi_ne_zero
  field_simp

/-- Cosine and sine of the embedded `atan2`: the unit direction of the
point `(den, num)`. -/
lemma cos_sin_atan2 (num den : ℝ) (hpos : 0 < Real.sqrt (num * num + den * den)) :
    Real.cos (atan2 num den) = den / Real.sqrt (num * num + den * den) ∧
    Real.sin (atan2 num den) = num / Real.sqrt (num * num + den * den) := by
  have hsum_nn : (0 : ℝ) ≤ num * num + den * den :=
    add_nonneg (mul_self_nonneg num) (mul_self_nonneg den)
  have hLne : Real.sqrt (num * num + den * den) ≠ 0 := ne_of_gt hpos
  have hLne2 : Real.sqrt (num ^ 2 + den ^ 2) ≠ 0 := by
    rw [show num ^ 2 + den ^ 2 = num * num + den * den by ring]
    exact hLne
  rcases lt_trichotomy den 0 with hden | hden | hden
  · have hdne : den ≠ 0 := ne_of_lt hden
    have hq : Real.sqrt (1 + (num / den) ^ 2) = Real.sqrt (num * num + den * den) / (-den) := by
      have h1 : 1 + (num / den) ^ 2 = (num * num + den * den) / ((-den) ^ 2) := by
        field_simp
        ring
      rw [h1, Real.sqrt_div hsum_nn, Real.sqrt_sq (by linarith : (0 : ℝ) ≤ -den)]
    rw [atan2, if_neg (by linarith), if_pos hden]
    split_ifs with hnum
    · constructor
      · rw [Real.cos_add, Real.cos_pi, Real.sin_pi, Real.cos_arctan, hq]
        field_simp
      · rw [Real.sin_add, Real.cos_pi, Real.sin_pi, Real.sin_arctan, hq]
        field_simp
        ring
    · constructor
      · rw [Real.cos_sub, Real.cos_pi, Real.sin_pi, Real.cos_arctan, hq]
        field_simp
      · rw [Real.sin_sub, Real.cos_pi, Real.sin_pi, Real.sin_arctan, hq]
        field_simp
        ring
  · rw [atan2, if_neg (by rw [hden]; exact lt_irrefl 0), if_neg (by rw [hden]; exact lt_irrefl 0)]
    have hLabs : Real.sqrt (num * num + den * den) = |num| := by
      rw [hden, show num * num + 0 * 0 = num * num by ring, Real.sqrt_mul_self_eq_abs]
    split_ifs with h1 h2
    · constructor
      · rw [Real.cos_pi_div_two, hden, zero_div]
      · rw [Real.sin_pi_div_two, hLabs, abs_of_pos h1, div_self (ne_of_gt h1)]
    · constructor
      · rw [Real.cos_neg, Real.cos_pi_div_two, hden, zero_div]
      · rw [Real.sin_neg, Real.sin_pi_div_two, hLabs, abs_of_neg h2, div_neg,
          div_self (ne_of_lt h2)]
    · have hnum0 : num = 0 := le_antisymm (not_lt.mp h1) (not_lt.mp h2)
      rw [hnum0, hden] at hpos
      norm_num at hpos
  · have hdne : den ≠ 0 := ne_of_gt hden
    have hq : Real.sqrt (1 + (num / den) ^ 2) = Real.sqrt (num * num + den * den) / den := by
      have h1 : 1 + (num / den) ^ 2 = (num * num + den * den) / (den ^ 2) := by
        field_simp
        ring
      rw [h1, Real.sqrt_div hsum_nn, Real.sqrt_sq (by linarith : (0 : ℝ) ≤ den)]
    rw [atan2, if_pos hden]
    constructor
    · rw [Real.cos_arctan, hq]
      field_simp
    · rw [Real.sin_arctan, hq]
      field_simp

/-- A successful full solve means the position computation succeeded with
the same tuple. -/
lemma set_arm_angles_some {x y z ga : ℝ} {p : ℝ × ℝ × ℝ × ℝ}
    (h : set_arm_angles x y z ga = some p) : arm_positions x y z ga = some p := by
  rw [set_arm_angles] at h
  cases harm : arm_positions x y z ga with
  | none =>
    rw [harm] at h
    exact absurd h (by simp)
  | some q =>
    rw [harm] at h
    have h2 : (if limitViolation q then none else some q) = some p := h
    by_cases hv : limitViolation q
    · rw [if_pos hv] at h2
      exact absurd h2 (by simp)
    · rw [if_neg hv] at h2
      exact h2

/-- Elimination for a successful position computation: the domain guards
held and the tuple is the explicit one of source lines 307-310. -/
lemma arm_positions_some_elim {x y z ga : ℝ} {p : ℝ × ℝ × ℝ × ℝ}
    (h : arm_positions x y z ga = some p) :
    s_w_sqrt x y z ga ≠ 0 ∧
    (-1 ≤ shoulderArg x y z ga ∧ shoulderArg x y z ga ≤ 1) ∧
    (-1 ≤ elbowArg x y z ga ∧ elbowArg x y z ga ≤ 1) ∧
    p = (BAS_MID + degrees (bas_angle_r x y),
      SHL_MID + (degrees (a1 x y z ga + arccos (shoulderArg x y z ga)) - 90),
      ELB_MID - (degrees (arccos (elbowArg x y z ga)) - 90),
      WRI_MID + ((ga - -(180 - degrees (arccos (elbowArg x y z ga)))) -
        degrees (a1 x y z ga + arccos (shoulderArg x y z ga)))) := by
  rw [arm_positions] at h
  by_cases h0 : s_w_sqrt x y z ga = 0
  · rw [if_pos h0] at h
    exact absurd h (by simp)
  rw [if_neg h0] at h
  by_cases hds : -1 ≤ shoulderArg x y z ga ∧ shoulderArg x y z ga ≤ 1
  · rw [acosD, if_pos hds] at h
    by_cases hde : -1 ≤ elbowArg x y z ga ∧ elbowArg x y z ga ≤ 1
    · rw [acosD, if_pos hde] at h
      exact ⟨h0, hds, hde, (Option.some.inj h).symm⟩
    · rw [acosD, if_neg hde] at h
      exact absurd h (by simp)
  · rw [acosD, if_neg hds] at h
    exact absurd h (by simp)

/-- Two-link reconstruction: with the shoulder angle `a1 + arccos c2` and
the ulna direction `shoulder + (arccos ce - π)` built from the law-of-cosine
arguments, forward kinematics lands exactly back on the wrist target. -/
lemma two_link_fk (wz wy L c2 ce : ℝ)
    (hL : L = Real.sqrt (wz * wz + wy * wy)) (hLpos : 0 < L)
    (hc2 : c2 = ((hum_sq - uln_sq) + (wz * wz + wy * wy)) / (2 * HUMERUS * L))
    (hce : ce = (hum_sq + uln_sq - (wz * wz + wy * wy)) / (2 * HUMERUS * ULNA))
    (hc2l : -1 ≤ c2) (hc2u : c2 ≤ 1) (hcel : -1 ≤ ce) (hceu : ce ≤ 1) :
    HUMERUS * Real.cos (atan2 wz wy + arccos c2) +
        ULNA * Real.cos (atan2 wz wy + arccos c2 + (arccos ce - π)) = wy ∧
      HUMERUS * Real.sin (atan2 wz wy + arccos c2) +
        ULNA * Real.sin (atan2 wz wy + arccos c2 + (arccos ce - π)) = wz := by
  have hsum_nn : (0 : ℝ) ≤ wz * wz + wy * wy :=
    add_nonneg (mul_self_nonneg wz) (mul_self_nonneg wy)
  have hLL : L * L = wz * wz + wy * wy := by
    rw [hL]
    exact Real.mul_self_sqrt hsum_nn
  have hLne : L ≠ 0 := ne_of_gt hLpos
  obtain ⟨hca, hsa⟩ := cos_sin_atan2 wz wy (hL ▸ hLpos)
  rw [← hL] at hca hsa
  have hcosa2 : Real.cos (arccos c2) = c2 := Real.cos_arccos hc2l hc2u
  have hsina2 : Real.sin (arccos c2) = Real.sqrt (1 - c2 ^ 2) := Real.sin_arccos c2
  have hcosce : Real.cos (arccos ce) = ce := Real.cos_arccos hcel hceu
  have hsince : Real.sin (arccos ce) = Real.sqrt (1 - ce ^ 2) := Real.sin_arccos ce
  have hH := HUMERUS_pos
  have hU := ULNA_pos
  have hsines : ULNA * Real.sqrt (1 - ce ^ 2) = L * Real.sqrt (1 - c2 ^ 2) := by
    have h1 : Real.sqrt (ULNA ^ 2 * (1 - ce ^ 2)) = ULNA * Real.sqrt (1 - ce ^ 2) := by
      rw [Real.sqrt_mul (by positivity) _, Real.sqrt_sq hU.le]
    have h2 : Real.sqrt (L ^ 2 * (1 - c2 ^ 2)) = L * Real.sqrt (1 - c2 ^ 2) := by
      rw [Real.sqrt_mul (by positivity) _, Real.sqrt_sq hLpos.le]
    rw [← h1, ← h2]
    congr 1
    rw [hc2, hce, ← hLL, hum_sq, uln_sq]
    field_simp
    ring
  have hkey : HUMERUS - ULNA * ce = L * c2 := by
    rw [hc2, hce, ← hLL, hum_sq, uln_sq]
    field_simp
    ring
  have hcem : Real.cos (arccos ce - π) = -ce := by
    rw [Real.cos_sub, Real.cos_pi, Real.sin_pi, hcosce]
    ring
  have hsem : Real.sin (arccos ce - π) = -Real.sqrt (1 - ce ^ 2) := by
    rw [Real.sin_sub, Real.cos_pi, Real.sin_pi, hsince]
    ring
  have hAmin : atan2 wz wy + arccos c2 - arccos c2 = atan2 wz wy := by ring
  constructor
  · calc HUMERUS * Real.cos (atan2 wz wy + arccos c2) +
        ULNA * Real.cos (atan2 wz wy + arccos c2 + (arccos ce - π))
        = Real.cos (atan2 wz wy + arccos c2) * (HUMERUS - ULNA * ce) +
          Real.sin (atan2 wz wy + arccos c2) * (ULNA * Real.sqrt (1 - ce ^ 2)) := by
          rw [Real.cos_add (atan2 wz wy + arccos c2) (arccos ce - π), hcem, hsem]
          ring
    _ = Real.cos (atan2 wz wy + arccos c2) * (L * c2) +
          Real.sin (atan2 wz wy + arccos c2) * (L * Real.sqrt (1 - c2 ^ 2)) := by
          rw [hkey, hsines]
    _ = L * (Real.cos (atan2 wz wy + arccos c2) * Real.cos (arccos c2) +
          Real.sin (atan2 wz wy + arccos c2) * Real.sin (arccos c2)) := by
          rw [hcosa2, hsina2]
          ring
    _ = L * Real.cos (atan2 wz wy + arccos c2 - arccos c2) := by
          rw [Real.cos_sub]
    _ = L * (wy / L) := by rw [hAmin, hca]
    _ = wy := by field_simp
  · calc HUMERUS * Real.sin (atan2 wz wy + arccos c2) +
        ULNA * Real.sin (atan2 wz wy + arccos c2 + (arccos ce - π))
        = Real.sin (atan2 wz wy + arccos c2) * (HUMERUS - ULNA * ce) -
          Real.cos (atan2 wz wy + arccos c2) * (ULNA * Real.sqrt (1 - ce ^ 2)) := by
          rw [Real.sin_add (atan2 wz wy + arccos c2) (arccos ce - π), hcem, hsem]
          ring
    _ = Real.sin (atan2 wz wy + arccos c2) * (L * c2) -
          Real.cos (atan2 wz wy + arccos c2) * (L * Real.sqrt (1 - c2 ^ 2)) := by
          rw [hkey, hsines]
    _ = L * (Real.sin (atan2 wz wy + arccos c2) * Real.cos (arccos c2) -
          Real.cos (atan2 wz wy + arccos c2) * Real.sin (arccos c2)) := by
          rw [hcosa2, hsina2]
          ring
    _ = L * Real.sin (atan2 wz wy + arccos c2 - arccos c2) := by
          rw [Real.sin_sub]
    _ = L * (wz / L) := by rw [hAmin, hsa]
    _ = wz := by field_simp

/-- C6: round trip through the solver - whenever the solve of
`(y, z, gripAngle)` (with x = 0, so y is the radial distance) succeeds,
forward kinematics applied to the four returned servo positions reproduces
the requested target exactly - in particular within any tolerance. -/
theorem C6_fk_roundtrip :
    ∀ y z grip_angle_d : ℝ, 0 ≤ y →
      Option.elim (set_arm_angles 0 y z grip_angle_d) True
        (fun p => fk p = (y, z, grip_angle_d)) := by
  intro y z ga hy
  cases h : set_arm_angles 0 y z ga with
  | none => exact trivial
  | some p =>
    show fk p = (y, z, ga)
    have harm := set_arm_angles_some h
    obtain ⟨hL0, ⟨hc2l, hc2u⟩, ⟨hcel, hceu⟩, hp⟩ := arm_positions_some_elim harm
    subst hp
    simp only [fk]
    have e1 : (SHL_MID + (degrees (a1 0 y z ga + arccos (shoulderArg 0 y z ga)) - 90) -
        SHL_MID) + 90 = degrees (a1 0 y z ga + arccos (shoulderArg 0 y z ga)) := by ring
    have e2 : 90 - (ELB_MID - (degrees (arccos (elbowArg 0 y z ga)) - 90) - ELB_MID) =
        degrees (arccos (elbowArg 0 y z ga)) := by ring
    have e3 : WRI_MID + ((ga - -(180 - degrees (arccos (elbowArg 0 y z ga)))) -
        degrees (a1 0 y z ga + arccos (shoulderArg 0 y z ga))) - WRI_MID =
        (ga - -(180 - degrees (arccos (elbowArg 0 y z ga)))) -
          degrees (a1 0 y z ga + arccos (shoulderArg 0 y z ga)) := by ring
    rw [e1, e2, e3]
    have e4 : ((ga - -(180 - degrees (arccos (elbowArg 0 y z ga)))) -
        degrees (a1 0 y z ga + arccos (shoulderArg 0 y z ga))) +
        -(180 - degrees (arccos (elbowArg 0 y z ga))) +
        degrees (a1 0 y z ga + arccos (shoulderArg 0 y z ga)) = ga := by ring
    rw [e4]
    have e5 : radians (-(180 - degrees (arccos (elbowArg 0 y z ga)))) =
        arccos (elbowArg 0 y z ga) - π := by
      rw [radians, degrees]
      have hπ : π ≠ 0 := pi_ne_zero
      field_simp
      ring
    rw [e5, radians_degrees]
    have hLpos : 0 < s_w_sqrt 0 y z ga :=
      lt_of_le_of_ne (Real.sqrt_nonneg _) (Ne.symm hL0)
    obtain ⟨hwy, hwz⟩ := two_link_fk (wrist_z z ga) (wrist_y 0 y ga) (s_w_sqrt 0 y z ga)
      (shoulderArg 0 y z ga) (elbowArg 0 y z ga) rfl hLpos rfl rfl hc2l hc2u hcel hceu
    rw [a1, hwy, hwz]
    have hrd : rdist 0 y = y := by
      rw [rdist, show (0 * 0 + y * y : ℝ) = y * y by ring, Real.sqrt_mul_self hy]
    simp only [Prod.mk.injEq]
    refine ⟨?_, ?_, trivial⟩
    · rw [wrist_y, grip_off_y, hrd]
      ring
    · rw [wrist_z, grip_off_z]
      ring

/-- Witness for C6 at the ready pose target (the solve there succeeds, see
`ready_solve`; the round-trip conclusion for it follows from the theorem). -/
theorem C6_fk_roundtrip_witness :
    (0 : ℝ) ≤ 170 ∧
      Option.elim (set_arm_angles 0 170 45 0) True (fun p => fk p = (170, 45, 0)) :=
  ⟨by norm_num, C6_fk_roundtrip 170 45 0 (by norm_num)⟩

end Protobot
